import Mathlib

/-!
Verification of the session-authentication subsystem of the wacli HTTP API.

The Go handlers (getQRCodeHandler, pairWithCodeHandler, waitForPairingHandler,
logoutHandler in the api package, APIKeyAuth in middleware.go, SetupRoutes in
routes.go) are shallowly embedded as pure Lean functions.  Calls into the
external app/platform client (OpenWA, IsAuthed, Connect, PairPhone, Logout,
EnsureAuthed, the qrcode encoder) are collaborators outside this subsystem;
their outcomes are supplied as oracle fields of an environment record, and each
handler returns the HTTP response it writes together with the ordered trace of
collaborator effects it performed.  Time is modelled in milliseconds: the
background connection events of the QR flow carry arrival times, and the
foreground select is resolved deterministically from those times against the
10-second foreground deadline.
-/

/-- A JSON value as used in the gin.H response bodies of the handlers. -/
inductive JVal where
  | s (v : String)
  | b (v : Bool)
  | n (v : Nat)
deriving DecidableEq, Repr

/-- An HTTP response: status code plus the JSON object body (key-value list,
in the order the Go code writes the gin.H literal). -/
structure Response where
  status : Nat
  body : List (String × JVal)
deriving DecidableEq, Repr

/-- A Go context as far as the handlers use one: whether it carries a
deadline (in ms) and whether it was derived from the HTTP request context
(and hence is cancelled when the request finishes). -/
structure Ctx where
  deadline : Option Nat
  derivedFromRequest : Bool
deriving DecidableEq, Repr

/-- An observable collaborator call made by a handler, in program order. -/
inductive Effect where
  | openWA
  | spawnBackground (c : Ctx)
  | connectCtx
  | pairPhone (phone : String)
  | connect (c : Ctx) (waitForPairing : Bool)
  | logoutCall
deriving DecidableEq, Repr

/-- Ten-second foreground deadline of getQRCodeHandler
(context.WithTimeout(c.Request.Context(), 10*time.Second)). -/
def qrDeadlineMs : Nat := 10000

/-- The context the QR handler passes to the background a.Connect call:
context.Background() — no deadline, not derived from the request context. -/
def backgroundCtx : Ctx := { deadline := none, derivedFromRequest := false }

/-- The 10-second request-derived context of the QR handler foreground. -/
def qrRequestCtx : Ctx := { deadline := some qrDeadlineMs, derivedFromRequest := true }

/-- Body of the 409 already-authenticated response (shared literal shape in
getQRCodeHandler and pairWithCodeHandler). -/
def conflictBody : List (String × JVal) :=
  [("error", .s "already authenticated"), ("authenticated", .b true)]

/-- Expiry hint returned with a QR code (expires_in field). -/
def qrExpirySeconds : Nat := 60

/-- Instruction string of the QR success response. -/
def qrInstructions : String :=
  "Scan this QR code with WhatsApp: Settings → Linked Devices → Link a Device"

/-- Environment of one getQRCodeHandler run: outcomes of the collaborator
calls and the timing of the background connection events. -/
structure QREnv where
  /-- result of a.OpenWA(): none = success -/
  openWAErr : Option String
  /-- a.WA().IsAuthed() at entry -/
  isAuthed : Bool
  /-- time (ms from handler start) at which the background task first invokes
  the code callback, none if no code is ever emitted -/
  codeAt : Option Nat
  /-- the code value delivered by that callback -/
  codeVal : String
  /-- time at which the background a.Connect call returns, none if it is
  still running at every time relevant to this request -/
  connectDoneAt : Option Nat
  /-- error returned by a.Connect when it returns: none = nil -/
  connectErr : Option String
  /-- result of qrcode.Encode on the delivered code: none = success -/
  qrEncodeErr : Option String
  /-- base64 PNG encoding produced by qrcode.Encode on success -/
  qrPng : String

/-- Whether the foreground select receives a code before the 10 s deadline. -/
def qrCodeWins (env : QREnv) : Bool :=
  match env.codeAt with
  | some t => t < qrDeadlineMs
  | none => false

/-- The response of the foreground select of getQRCodeHandler, given that the
already-authenticated guard did not fire.  A code that arrives before the
deadline wins (the callback stores it in the 1-buffered channel and cannot be
preceded by the background error, which is only posted when Connect returns,
i.e. after any code emission).  Otherwise an error posted before the deadline
wins (the goroutine posts it only when ctx.Err() == nil, i.e. before the
deadline and before the handler returned).  Otherwise ctx.Done() fires at the
deadline and the handler answers 408. -/
def qrSelect (env : QREnv) : Response :=
  if qrCodeWins env then
    match env.qrEncodeErr with
    | some e => { status := 500, body := [("error", .s ("failed to generate QR code image: " ++ e))] }
    | none =>
      { status := 200
        body := [("qr_code", .s env.codeVal),
                 ("qr_code_png", .s ("data:image/png;base64," ++ env.qrPng)),
                 ("expires_in", .n qrExpirySeconds),
                 ("instructions", .s qrInstructions)] }
  else
    match env.connectDoneAt, env.connectErr with
    | some tr, some e =>
      if tr < qrDeadlineMs then
        { status := 500, body := [("error", .s ("connection failed: " ++ e))] }
      else
        { status := 408, body := [("error", .s "timeout waiting for QR code")] }
    | _, _ => { status := 408, body := [("error", .s "timeout waiting for QR code")] }

/-- Shallow embedding of getQRCodeHandler (ai.go): the conflict guard, the
spawn of the detached background connection, and the bounded foreground
select.  Returns the response and the ordered collaborator-effect trace. -/
def getQRCodeHandler (env : QREnv) : Response × List Effect :=
  if env.openWAErr.isNone && env.isAuthed then
    ({ status := 409, body := conflictBody }, [.openWA])
  else
    (qrSelect env, [.openWA, .spawnBackground backgroundCtx])

/-- Number of codes the foreground waiter consumes from the delivery channel
in one getQRCodeHandler run: one when the code branch of the select fires,
zero otherwise. -/
def qrCodesConsumed (env : QREnv) : Nat :=
  if !(env.openWAErr.isNone && env.isAuthed) && qrCodeWins env then 1 else 0

/-! ## waitForPairingHandler (AuthStatusPoller) -/

/-- One-hundred-twenty-second deadline of waitForPairingHandler
(context.WithTimeout(c.Request.Context(), 120*time.Second)). -/
def waitDeadlineSeconds : Nat := 120

/-- Environment of one waitForPairingHandler run.  authAt k is the value
IsAuthed() returns at the k-th sample: k = 0 is the entry check, k = 1, 2, ...
are the one-second ticker samples.  ticks is the number of ticker firings the
select delivers before ctx.Done() wins (120-second deadline over a 1-second
ticker; kept abstract so the race between the final tick and the deadline
needs no arbitrary resolution). -/
structure WaitEnv where
  openWAErr : Option String
  authAt : Nat → Bool
  ticks : Nat

/-- Body of the 200 response of the polling loop. -/
def waitLoopSuccess : Response :=
  { status := 200, body := [("authenticated", .b true), ("message", .s "pairing successful")] }

/-- Body of the 200 response when already authenticated at entry. -/
def waitEntrySuccess : Response :=
  { status := 200, body := [("authenticated", .b true), ("message", .s "already authenticated")] }

/-- Body of the 408 response when the 120 s deadline elapses unauthenticated. -/
def waitTimeout : Response :=
  { status := 408, body := [("authenticated", .b false), ("error", .s "timeout waiting for pairing")] }

/-- The polling loop of waitForPairingHandler: fuel is the number of ticker
firings still to come before the deadline, sleeps the number of one-second
ticks already waited through.  Each iteration waits one tick and samples
IsAuthed(); on true it answers 200, and when the deadline fires first it
answers 408.  Returns the response and the total number of one-second sleeps
performed. -/
def waitPoll (authAt : Nat → Bool) : Nat → Nat → Response × Nat
  | 0, sleeps => (waitTimeout, sleeps)
  | fuel + 1, sleeps =>
    if authAt (sleeps + 1) then (waitLoopSuccess, sleeps + 1)
    else waitPoll authAt fuel (sleeps + 1)

/-- Shallow embedding of waitForPairingHandler (ai.go): OpenWA guard, entry
authentication check, then the bounded 1-second polling loop.  Returns the
response and the number of one-second sleeps performed. -/
def waitForPairingHandler (env : WaitEnv) : Response × Nat :=
  match env.openWAErr with
  | some e => ({ status := 500, body := [("error", .s ("failed to check auth status: " ++ e))] }, 0)
  | none =>
    if env.authAt 0 then (waitEntrySuccess, 0)
    else waitPoll env.authAt env.ticks 0

/-! ## pairWithCodeHandler (phone-number pairing flow) -/

/-- The JSON body of a POST /auth/pair request, as far as the binding layer
distinguishes it: syntactically invalid JSON, or a JSON object carrying a
phone_number string (possibly empty). -/
inductive PairBody where
  | invalidJson
  | json (phone : String)
deriving DecidableEq, Repr

/-- Embedding of c.ShouldBindJSON on pairWithCodeRequest: binding fails on
invalid JSON and, through the required tag on PhoneNumber, on a missing or
empty phone_number.  No other validation of the number is performed. -/
def bindPairRequest : PairBody → Except String String
  | .invalidJson => .error "invalid JSON body"
  | .json p => if p = "" then .error "PhoneNumber is required" else .ok p

/-- Expiry hint returned with a phone pairing code (expires_in field). -/
def pairExpirySeconds : Nat := 300

/-- Instruction string of the phone-pairing success response. -/
def pairInstructions : String :=
  "Enter this code in WhatsApp: Settings → Linked Devices → Link a Device → Link with Phone Number"

/-- Environment of one pairWithCodeHandler run: the request body and the
outcomes of the collaborator calls. -/
structure PairEnv where
  body : PairBody
  /-- result of a.OpenWA() (same both times it is called): none = success -/
  openWAErr : Option String
  /-- a.WA().IsAuthed() at the guard -/
  isAuthed : Bool
  /-- whether the client satisfies the clientGetter/ConnectContext interfaces -/
  hasClientGetter : Bool
  /-- client.IsConnected() -/
  isConnected : Bool
  /-- result of client.ConnectContext(ctx): none = success -/
  connectErr : Option String
  /-- result of a.WA().PairPhone: none = success -/
  pairErr : Option String
  /-- the pairing code on success -/
  pairCode : String
deriving Repr

/-- Final step of pairWithCodeHandler: the PairPhone call and its response. -/
def pairFinish (env : PairEnv) (phone : String) (tr : List Effect) : Response × List Effect :=
  match env.pairErr with
  | some e =>
    ({ status := 500, body := [("error", .s ("failed to request pairing code: " ++ e))] },
     tr ++ [.pairPhone phone])
  | none =>
    ({ status := 200
       body := [("pairing_code", .s env.pairCode),
                ("phone_number", .s phone),
                ("expires_in", .n pairExpirySeconds),
                ("instructions", .s pairInstructions)] },
     tr ++ [.pairPhone phone])

/-- Shallow embedding of pairWithCodeHandler (ai.go): body binding, the
already-authenticated guard, synchronous client initialization, transport
connect only when not already connected, then the pairing-code request. -/
def pairWithCodeHandler (env : PairEnv) : Response × List Effect :=
  match bindPairRequest env.body with
  | .error m => ({ status := 400, body := [("error", .s ("invalid request: " ++ m))] }, [])
  | .ok phone =>
    if env.openWAErr.isNone && env.isAuthed then
      ({ status := 409, body := conflictBody }, [.openWA])
    else
      match env.openWAErr with
      | some e =>
        ({ status := 500, body := [("error", .s ("failed to initialize WhatsApp client: " ++ e))] },
         [.openWA, .openWA])
      | none =>
        if env.hasClientGetter && !env.isConnected then
          match env.connectErr with
          | some e =>
            ({ status := 500, body := [("error", .s ("failed to connect to WhatsApp: " ++ e))] },
             [.openWA, .openWA, .connectCtx])
          | none => pairFinish env phone [.openWA, .openWA, .connectCtx]
        else
          pairFinish env phone [.openWA, .openWA]

/-! ## logoutHandler -/

/-- The 10-second request-derived context of logoutHandler. -/
def logoutRequestCtx : Ctx := { deadline := some 10000, derivedFromRequest := true }

/-- Environment of one logoutHandler run. -/
structure LogoutEnv where
  /-- result of a.EnsureAuthed(): none = success (session authenticated) -/
  ensureAuthedErr : Option String
  /-- result of a.Connect(ctx, false, nil): none = success -/
  connectErr : Option String
  /-- result of a.WA().Logout(ctx): none = success -/
  logoutErr : Option String
deriving DecidableEq, Repr

/-- Shallow embedding of logoutHandler (ai.go): EnsureAuthed guard, connect,
platform logout. -/
def logoutHandler (env : LogoutEnv) : Response × List Effect :=
  match env.ensureAuthedErr with
  | some _ => ({ status := 401, body := [("error", .s "not authenticated")] }, [])
  | none =>
    match env.connectErr with
    | some e =>
      ({ status := 500, body := [("error", .s ("failed to connect: " ++ e))] },
       [.connect logoutRequestCtx false])
    | none =>
      match env.logoutErr with
      | some e =>
        ({ status := 500, body := [("error", .s ("logout failed: " ++ e))] },
         [.connect logoutRequestCtx false, .logoutCall])
      | none =>
        ({ status := 200, body := [("logged_out", .b true), ("message", .s "successfully logged out")] },
         [.connect logoutRequestCtx false, .logoutCall])

/-! ## Single-slot code delivery (the 1-buffered channel of the QR flow) -/

/-- The code-delivery channel of getQRCodeHandler, make(chan string, 1),
modelled by its queue of pending values. -/
abbrev CodeChan := List String

/-- Capacity of the delivery channel. -/
def codeChanCap : Nat := 1

/-- Embedding of the callback body
select case qrCodeChan <- code / default:
a non-blocking send — enqueue when below capacity, otherwise drop silently. -/
def trySend (ch : CodeChan) (code : String) : CodeChan :=
  if ch.length < codeChanCap then ch ++ [code] else ch

/-- State of the channel after an arbitrary sequence of callback invocations
starting from the empty channel. -/
def depositAll (codes : List String) : CodeChan :=
  codes.foldl trySend []

/-! ## APIKeyAuth middleware and route table -/

/-- The parts of an HTTP request the APIKeyAuth middleware inspects. -/
structure APIRequest where
  /-- value of the X-API-Key header, empty string when absent -/
  xApiKey : String
  /-- value of the api_key query parameter, empty string when absent -/
  apiKeyQuery : String
  /-- value of the Authorization header, empty string when absent -/
  authorization : String
deriving DecidableEq, Repr

/-- Embedding of strings.HasPrefix over the character sequence of a string. -/
def goHasPrefix (s pre : String) : Bool :=
  pre.data.isPrefixOf s.data

/-- Embedding of strings.TrimPrefix: drop the prefix when present,
otherwise return the string unchanged. -/
def goTrimPrefix (s pre : String) : String :=
  if goHasPrefix s pre then String.mk (s.data.drop pre.data.length) else s

/-- Key extraction of APIKeyAuth (middleware.go): X-API-Key header first,
then the api_key query parameter, then a Bearer Authorization header. -/
def extractAPIKey (r : APIRequest) : String :=
  let k1 := r.xApiKey
  let k2 := if k1 = "" then r.apiKeyQuery else k1
  if k2 = "" then
    if goHasPrefix r.authorization "Bearer " then
      goTrimPrefix r.authorization "Bearer "
    else ""
  else k2

/-- Outcome of the middleware on one request. -/
inductive AuthDecision where
  | rejectedMissing
  | rejectedInvalid
  | handlerRuns
deriving DecidableEq, Repr

/-- Embedding of the APIKeyAuth handler closure: empty extracted key aborts
with 401 (key required), a key outside the configured set aborts with 401
(invalid key), otherwise c.Next() runs the endpoint handler. -/
def apiKeyAuth (validKeys : List String) (r : APIRequest) : AuthDecision :=
  let key := extractAPIKey r
  if key = "" then .rejectedMissing
  else if validKeys.contains key then .handlerRuns
  else .rejectedInvalid

/-- The HTTP status the middleware writes when it aborts, none when the
request is passed on to the endpoint handler. -/
def authAbortStatus (d : AuthDecision) : Option Nat :=
  match d with
  | .rejectedMissing => some 401
  | .rejectedInvalid => some 401
  | .handlerRuns => none

/-- A route of SetupRoutes: method, path, and whether it is registered
inside the /api/v1 group that carries the APIKeyAuth middleware. -/
structure Route where
  method : String
  path : String
  requiresAPIKey : Bool
deriving DecidableEq, Repr

/-- The routes registered inside the router.Group("/api/v1") block of
SetupRoutes (routes.go); the group installs APIKeyAuth, so every one of
them requires an API key. -/
def apiV1Routes : List Route :=
  [⟨"GET", "/api/v1/messages", true⟩,
   ⟨"GET", "/api/v1/messages/search", true⟩,
   ⟨"GET", "/api/v1/messages/:id", true⟩,
   ⟨"POST", "/api/v1/send/text", true⟩,
   ⟨"POST", "/api/v1/send/file", true⟩,
   ⟨"POST", "/api/v1/webhook/grafana", true⟩,
   ⟨"POST", "/api/v1/webhook/generic", true⟩,
   ⟨"GET", "/api/v1/contacts", true⟩,
   ⟨"GET", "/api/v1/contacts/search", true⟩,
   ⟨"GET", "/api/v1/contacts/:jid", true⟩,
   ⟨"POST", "/api/v1/contacts/:jid/alias", true⟩,
   ⟨"POST", "/api/v1/contacts/refresh", true⟩,
   ⟨"GET", "/api/v1/chats", true⟩,
   ⟨"GET", "/api/v1/chats/:jid", true⟩,
   ⟨"GET", "/api/v1/groups", true⟩,
   ⟨"GET", "/api/v1/groups/:jid", true⟩,
   ⟨"POST", "/api/v1/groups/:jid/participants", true⟩,
   ⟨"POST", "/api/v1/groups/:jid/name", true⟩,
   ⟨"GET", "/api/v1/groups/:jid/invite", true⟩,
   ⟨"POST", "/api/v1/groups/join", true⟩,
   ⟨"POST", "/api/v1/groups/:jid/leave", true⟩,
   ⟨"GET", "/api/v1/auth/status", true⟩,
   ⟨"GET", "/api/v1/auth/qr", true⟩,
   ⟨"POST", "/api/v1/auth/pair", true⟩,
   ⟨"GET", "/api/v1/auth/wait", true⟩,
   ⟨"POST", "/api/v1/auth/logout", true⟩,
   ⟨"POST", "/api/v1/sync", true⟩,
   ⟨"GET", "/api/v1/media/:id", true⟩,
   ⟨"POST", "/api/v1/history/backfill", true⟩]

/-- The public routes of SetupRoutes, registered before the group and
without the middleware. -/
def publicRoutes : List Route :=
  [⟨"GET", "/health", false⟩]

/-- The /auth/* routes of the pairing subsystem, all inside the group. -/
def authRoutes : List Route :=
  [⟨"GET", "/api/v1/auth/status", true⟩,
   ⟨"GET", "/api/v1/auth/qr", true⟩,
   ⟨"POST", "/api/v1/auth/pair", true⟩,
   ⟨"GET", "/api/v1/auth/wait", true⟩,
   ⟨"POST", "/api/v1/auth/logout", true⟩]

/-! ## Concrete environments used by witnesses and counterexamples -/

/-- Concrete environment for an already-authenticated QR request. -/
def qrEnvAuthed : QREnv :=
  { openWAErr := none, isAuthed := true, codeAt := none, codeVal := "",
    connectDoneAt := none, connectErr := none, qrEncodeErr := none, qrPng := "" }

/-- Concrete environment for a logout request without prior authentication. -/
def logoutEnvUnauthed : LogoutEnv :=
  { ensureAuthedErr := some "not logged in", connectErr := none, logoutErr := none }

/-- Concrete QR environment in which the background task neither emits a code
nor returns before every time relevant to the request. -/
def qrEnvDetached : QREnv :=
  { openWAErr := none, isAuthed := false, codeAt := none, codeVal := "",
    connectDoneAt := none, connectErr := none, qrEncodeErr := none, qrPng := "" }

/-- Concrete QR environment in which a code is delivered at 1 s and the
background Connect call then fails at 5 s, both well before the 10 s
foreground deadline. -/
def qrEnvLateError : QREnv :=
  { openWAErr := none, isAuthed := false, codeAt := some 1000, codeVal := "QRDATA",
    connectDoneAt := some 5000, connectErr := some "network down",
    qrEncodeErr := none, qrPng := "PNGB64" }

/-- Concrete QR environment in which the background Connect call fails at 3 s
without ever emitting a code. -/
def qrEnvEarlyError : QREnv :=
  { openWAErr := none, isAuthed := false, codeAt := none, codeVal := "",
    connectDoneAt := some 3000, connectErr := some "dns failure",
    qrEncodeErr := none, qrPng := "" }

/-- Concrete wait environment in which OpenWA fails. -/
def waitEnvOpenFail : WaitEnv :=
  { openWAErr := some "db locked", authAt := fun _ => false, ticks := waitDeadlineSeconds }

/-- Concrete wait environment: unauthenticated at entry, authentication
completes at the second ticker sample, five ticks before the deadline. -/
def waitEnvTick : WaitEnv :=
  { openWAErr := none, authAt := fun k => k == 2, ticks := 5 }

/-- Concrete pairing environment with a syntactically valid body carrying a
malformed (non-numeric, non-empty) phone number, on an unauthenticated and
unconnected session whose platform rejects the pairing request. -/
def pairEnvMalformed : PairEnv :=
  { body := .json "not-a-number", openWAErr := none, isAuthed := false,
    hasClientGetter := true, isConnected := false, connectErr := none,
    pairErr := some "invalid phone number", pairCode := "" }

/-- Concrete pairing environment with an empty phone number. -/
def pairEnvEmptyPhone : PairEnv :=
  { body := .json "", openWAErr := none, isAuthed := false,
    hasClientGetter := true, isConnected := false, connectErr := none,
    pairErr := none, pairCode := "" }

/-- Concrete pairing environment for the successful phone-pairing path. -/
def pairEnvHappy : PairEnv :=
  { body := .json "+5511999999999", openWAErr := none, isAuthed := false,
    hasClientGetter := true, isConnected := false, connectErr := none,
    pairErr := none, pairCode := "ABCD-1234" }

/-- Concrete key set and request for the middleware witness. -/
def sampleKeys : List String := ["k1", "k2"]

/-- Concrete request presenting a valid key in the X-API-Key header. -/
def sampleReq : APIRequest :=
  { xApiKey := "k2", apiKeyQuery := "", authorization := "" }

/-! ## Theorems -/

/-- C1: for every GET /auth/qr request made while the session is already
authenticated (OpenWA succeeds and IsAuthed() is true), the handler answers
409 with an already-authenticated body, performs no collaborator call beyond
the guard's OpenWA, spawns no background connection task, and hence leaves
the session untouched. -/
theorem qr_conflict_when_authenticated (env : QREnv)
    (h1 : env.openWAErr = none) (h2 : env.isAuthed = true) :
    getQRCodeHandler env = ({ status := 409, body := conflictBody }, [Effect.openWA]) ∧
    (∀ c, Effect.spawnBackground c ∉ (getQRCodeHandler env).2) := by
  have hg : (env.openWAErr.isNone && env.isAuthed) = true := by rw [h1, h2]; rfl
  refine ⟨?_, ?_⟩
  · simp [getQRCodeHandler, hg]
  · intro c
    simp [getQRCodeHandler, hg]

/-- Witness for qr_conflict_when_authenticated at a concrete environment. -/
theorem qr_conflict_when_authenticated_witness :
    getQRCodeHandler qrEnvAuthed = ({ status := 409, body := conflictBody }, [Effect.openWA]) ∧
    Effect.spawnBackground backgroundCtx ∉ (getQRCodeHandler qrEnvAuthed).2 :=
  ⟨(qr_conflict_when_authenticated qrEnvAuthed rfl rfl).1,
   (qr_conflict_when_authenticated qrEnvAuthed rfl rfl).2 backgroundCtx⟩

/-- C6: for every POST /auth/logout request on an unauthenticated session
(EnsureAuthed fails), the handler answers 401 with a not-authenticated error
and performs no collaborator call at all: neither Connect nor the platform
Logout is invoked, so the session state is untouched. -/
theorem logout_guard_not_authenticated (env : LogoutEnv) (e : String)
    (h : env.ensureAuthedErr = some e) :
    logoutHandler env =
      ({ status := 401, body := [("error", JVal.s "not authenticated")] }, []) ∧
    (∀ c w, Effect.connect c w ∉ (logoutHandler env).2) ∧
    Effect.logoutCall ∉ (logoutHandler env).2 := by
  have hh : logoutHandler env =
      ({ status := 401, body := [("error", JVal.s "not authenticated")] }, []) := by
    unfold logoutHandler
    rw [h]
  refine ⟨hh, ?_, ?_⟩
  · intro c w
    rw [hh]
    simp
  · rw [hh]
    simp

/-- Witness for logout_guard_not_authenticated at a concrete environment. -/
theorem logout_guard_not_authenticated_witness :
    logoutHandler logoutEnvUnauthed =
      ({ status := 401, body := [("error", JVal.s "not authenticated")] }, []) ∧
    Effect.logoutCall ∉ (logoutHandler logoutEnvUnauthed).2 :=
  ⟨(logout_guard_not_authenticated logoutEnvUnauthed "not logged in" rfl).1,
   (logout_guard_not_authenticated logoutEnvUnauthed "not logged in" rfl).2.2⟩

/-- If every sample the loop will take is false, the poll loop runs out its
fuel and answers the timeout response after fuel sleeps. -/
theorem waitPoll_timeout (authAt : Nat → Bool) (fuel s : Nat)
    (h : ∀ k, s < k → k ≤ s + fuel → authAt k = false) :
    waitPoll authAt fuel s = (waitTimeout, s + fuel) := by
  induction fuel generalizing s with
  | zero => simp [waitPoll]
  | succ n ih =>
    have h1 : authAt (s + 1) = false := h (s + 1) (Nat.lt_succ_self s) (by omega)
    rw [waitPoll, h1]
    simp only [Bool.false_eq_true, if_false]
    rw [ih (s + 1) (fun k hk1 hk2 => h k (by omega) (by omega))]
    rw [show s + 1 + n = s + (n + 1) from by omega]

/-- If some sample within the remaining fuel is true, the poll loop answers
the success response. -/
theorem waitPoll_success (authAt : Nat → Bool) (fuel s : Nat)
    (h : ∃ k, s < k ∧ k ≤ s + fuel ∧ authAt k = true) :
    (waitPoll authAt fuel s).1 = waitLoopSuccess := by
  induction fuel generalizing s with
  | zero =>
    obtain ⟨k, h1, h2, _⟩ := h
    omega
  | succ n ih =>
    by_cases ha : authAt (s + 1) = true
    · rw [waitPoll, ha]
      simp
    · have hb : authAt (s + 1) = false := Bool.not_eq_true _ ▸ Bool.eq_false_iff.mpr (by
        intro he
        exact ha he)
      rw [waitPoll, hb]
      simp only [Bool.false_eq_true, if_false]
      obtain ⟨k, h1, h2, h3⟩ := h
      have hk : k ≠ s + 1 := by
        intro he
        rw [he, hb] at h3
        cases h3
      exact ih (s + 1) ⟨k, by omega, by omega, h3⟩

/-- The poll loop has exactly two possible responses: success or timeout. -/
theorem waitPoll_dichotomy (authAt : Nat → Bool) (fuel s : Nat) :
    (waitPoll authAt fuel s).1 = waitLoopSuccess ∨ (waitPoll authAt fuel s).1 = waitTimeout := by
  induction fuel generalizing s with
  | zero => exact Or.inr rfl
  | succ n ih =>
    by_cases ha : authAt (s + 1) = true
    · rw [waitPoll, ha]
      simp
    · have hb : authAt (s + 1) = false := by
        cases hv : authAt (s + 1) with
        | false => rfl
        | true => exact absurd hv ha
      rw [waitPoll, hb]
      simp only [Bool.false_eq_true, if_false]
      exact ih (s + 1)

/-- C5 counterexample: at a request in which OpenWA fails, waitForPairingHandler
answers 500 — not the immediate success and not one of the two claimed waiting
outcomes (200 authenticated, 408 timeout), refuting the claim that for every
GET /auth/wait request the non-authenticated path only ever produces those. -/
theorem wait_openwa_failure_counterexample :
    ¬ ((waitForPairingHandler waitEnvOpenFail).1.status = 200 ∨
       (waitForPairingHandler waitEnvOpenFail).1.status = 408) := by
  simp [waitForPairingHandler, waitEnvOpenFail]

/-- C5 amended: for every GET /auth/wait request in which the client handle
opens successfully, an already-authenticated session at entry yields 200
immediately with zero one-second sleeps; otherwise the handler samples
IsAuthed() once per one-second tick, answers 408 (authenticated false) with
one sleep per delivered tick when every sample is false, answers 200
(authenticated true) as soon as a sample is true, and the waiting loop
produces no outcome other than these two.  When the handle fails to open the
handler answers 500 before any sampling. -/
theorem wait_poll_behaviour (env : WaitEnv) :
    (∀ e, env.openWAErr = some e →
      waitForPairingHandler env =
        ({ status := 500, body := [("error", JVal.s ("failed to check auth status: " ++ e))] }, 0)) ∧
    (env.openWAErr = none →
      (env.authAt 0 = true → waitForPairingHandler env = (waitEntrySuccess, 0)) ∧
      (env.authAt 0 = false →
        ((∀ k, 1 ≤ k → k ≤ env.ticks → env.authAt k = false) →
          waitForPairingHandler env = (waitTimeout, env.ticks)) ∧
        ((∃ k, 1 ≤ k ∧ k ≤ env.ticks ∧ env.authAt k = true) →
          (waitForPairingHandler env).1 = waitLoopSuccess) ∧
        ((waitForPairingHandler env).1 = waitLoopSuccess ∨
         (waitForPairingHandler env).1 = waitTimeout))) := by
  refine ⟨?_, ?_⟩
  · intro e he
    simp [waitForPairingHandler, he]
  · intro hn
    have hh : waitForPairingHandler env =
        if env.authAt 0 then (waitEntrySuccess, 0) else waitPoll env.authAt env.ticks 0 := by
      simp [waitForPairingHandler, hn]
    refine ⟨?_, ?_⟩
    · intro h0
      rw [hh, if_pos h0]
    · intro h0
      rw [hh, if_neg (by rw [h0]; simp)]
      refine ⟨?_, ?_, ?_⟩
      · intro hall
        have := waitPoll_timeout env.authAt env.ticks 0 (fun k hk1 hk2 => hall k (by omega) (by omega))
        simpa using this
      · rintro ⟨k, hk1, hk2, hk3⟩
        exact waitPoll_success env.authAt env.ticks 0 ⟨k, by omega, by omega, hk3⟩
      · exact waitPoll_dichotomy env.authAt env.ticks 0

/-- Witness for wait_poll_behaviour: authentication completes at the second
tick and the handler answers the loop success response. -/
theorem wait_poll_behaviour_witness :
    (waitForPairingHandler waitEnvTick).1 = waitLoopSuccess :=
  (((wait_poll_behaviour waitEnvTick).2 rfl).2 rfl).2.1 ⟨2, by decide, by decide, rfl⟩

/-- C2: for every GET /auth/qr request past the guard in which neither a code
nor a background error arrives before the 10-second foreground deadline, the
handler answers 408 while the spawned background task was given a context with
no deadline, not derived from the request context — so sending the 408 does
not cancel it; and any later GET /auth/wait whose samples span a moment at
which IsAuthed() is true answers 200 with authenticated true. -/
theorem qr_timeout_background_persists (env : QREnv)
    (hg : (env.openWAErr.isNone && env.isAuthed) = false)
    (hcode : ∀ t, env.codeAt = some t → qrDeadlineMs ≤ t)
    (herr : ∀ tr, env.connectDoneAt = some tr → env.connectErr ≠ none → qrDeadlineMs ≤ tr) :
    getQRCodeHandler env =
      ({ status := 408, body := [("error", JVal.s "timeout waiting for QR code")] },
       [Effect.openWA, Effect.spawnBackground backgroundCtx]) ∧
    backgroundCtx.deadline = none ∧
    backgroundCtx.derivedFromRequest = false ∧
    (∀ (authAt : Nat → Bool) (ticks : Nat),
      (∃ k, k ≤ ticks ∧ authAt k = true) →
      (waitForPairingHandler { openWAErr := none, authAt := authAt, ticks := ticks }).1.status = 200 ∧
      ("authenticated", JVal.b true) ∈
        (waitForPairingHandler { openWAErr := none, authAt := authAt, ticks := ticks }).1.body) := by
  have hw : qrCodeWins env = false := by
    unfold qrCodeWins
    cases hca : env.codeAt with
    | none => rfl
    | some t =>
      simp [Nat.not_lt.mpr (hcode t hca)]
  refine ⟨?_, rfl, rfl, ?_⟩
  · have h1 : getQRCodeHandler env = (qrSelect env, [.openWA, .spawnBackground backgroundCtx]) := by
      simp [getQRCodeHandler, hg]
    rw [h1]
    have h2 : qrSelect env =
        { status := 408, body := [("error", JVal.s "timeout waiting for QR code")] } := by
      unfold qrSelect
      rw [hw]
      simp only [Bool.false_eq_true, if_false]
      cases hd : env.connectDoneAt with
      | none => cases env.connectErr <;> rfl
      | some tr =>
        cases he : env.connectErr with
        | none => rfl
        | some e =>
          have := herr tr hd (by rw [he]; exact (by simp))
          simp [Nat.not_lt.mpr this]
    rw [h2]
  · intro authAt ticks hk
    obtain ⟨k, hk1, hk2⟩ := hk
    have hps := wait_poll_behaviour { openWAErr := none, authAt := authAt, ticks := ticks }
    by_cases h0 : authAt 0 = true
    · have := (hps.2 rfl).1 h0
      rw [this]
      exact ⟨rfl, by simp [waitEntrySuccess]⟩
    · have h0f : authAt 0 = false := by
        cases hv : authAt 0 with
        | false => rfl
        | true => exact absurd hv h0
      have hk0 : 1 ≤ k := by
        rcases Nat.eq_zero_or_pos k with hz | hp
        · rw [hz] at hk2
          exact absurd hk2 h0
        · exact hp
      have := ((hps.2 rfl).2 h0f).2.1 ⟨k, hk0, hk1, hk2⟩
      rw [this]
      exact ⟨rfl, by simp [waitLoopSuccess]⟩

/-- Witness for qr_timeout_background_persists: no code and no background
return at all, and a wait request whose first sample is already true. -/
theorem qr_timeout_background_persists_witness :
    (getQRCodeHandler qrEnvDetached).1.status = 408 ∧
    backgroundCtx.deadline = none ∧
    (waitForPairingHandler { openWAErr := none, authAt := fun _ => true, ticks := 0 }).1.status = 200 := by
  have h := qr_timeout_background_persists qrEnvDetached rfl
    (by intro t ht; simp [qrEnvDetached] at ht)
    (by intro tr htr _; simp [qrEnvDetached] at htr)
  exact ⟨by rw [h.1], h.2.1, (h.2.2.2 (fun _ => true) 0 ⟨0, Nat.le_refl 0, rfl⟩).1⟩

/-- C3 counterexample: an unauthenticated GET /auth/qr run spawns its
background connection task with context.Background(): the claimed property
that the background Connect call is given a context that expires is false —
the context passed carries no deadline at all. -/
theorem qr_background_deadline_counterexample :
    Effect.spawnBackground backgroundCtx ∈ (getQRCodeHandler qrEnvDetached).2 ∧
    ¬ ∃ d, backgroundCtx.deadline = some d := by
  refine ⟨by decide, ?_⟩
  rintro ⟨d, hd⟩
  simp [backgroundCtx] at hd

/-- C3 amended: every background connection task spawned by getQRCodeHandler
is given exactly context.Background() — a context with no deadline, not
derived from the request context — so the handler imposes no outer deadline
on the background Connect call and its termination is not ensured by a
context expiry. -/
theorem qr_background_context_no_deadline (env : QREnv) (c : Ctx)
    (h : Effect.spawnBackground c ∈ (getQRCodeHandler env).2) :
    c = backgroundCtx ∧ c.deadline = none ∧ c.derivedFromRequest = false := by
  unfold getQRCodeHandler at h
  by_cases hg : (env.openWAErr.isNone && env.isAuthed) = true
  · rw [if_pos hg] at h
    simp at h
  · rw [if_neg hg] at h
    simp at h
    subst h
    exact ⟨rfl, rfl, rfl⟩

/-- Witness for qr_background_context_no_deadline at a concrete run. -/
theorem qr_background_context_no_deadline_witness :
    backgroundCtx.deadline = none ∧ backgroundCtx.derivedFromRequest = false :=
  ⟨(qr_background_context_no_deadline qrEnvDetached backgroundCtx (by decide)).2.1,
   (qr_background_context_no_deadline qrEnvDetached backgroundCtx (by decide)).2.2⟩

/-- Folding further sends into a channel already at capacity changes nothing. -/
theorem foldl_trySend_of_full (cs : List String) (ch : CodeChan) (h : codeChanCap ≤ ch.length) :
    cs.foldl trySend ch = ch := by
  induction cs generalizing ch with
  | nil => rfl
  | cons c cs ih =>
    have hc : trySend ch c = ch := by
      unfold trySend
      rw [if_neg (Nat.not_lt.mpr h)]
    rw [List.foldl_cons, hc]
    exact ih ch h

/-- C4: the code-delivery mechanism of the QR flow is a single-slot,
non-blocking handoff: after any sequence of callback invocations the channel
holds at most one pending code — exactly the first one delivered; a send into
the full slot is a silent drop and a send into the empty slot deposits the
code (both are total functions, never blocking the producer); and the
foreground waiter consumes at most one code per request. -/
theorem qr_single_slot_delivery (codes : List String) :
    (depositAll codes).length ≤ 1 ∧
    depositAll codes = codes.head?.toList ∧
    (∀ ch v, codeChanCap ≤ ch.length → trySend ch v = ch) ∧
    (∀ v, trySend [] v = [v]) ∧
    (∀ env : QREnv, qrCodesConsumed env ≤ 1) := by
  have hhead : depositAll codes = codes.head?.toList := by
    cases codes with
    | nil => rfl
    | cons c cs =>
      have h1 : depositAll (c :: cs) = cs.foldl trySend [c] := by
        unfold depositAll
        rw [List.foldl_cons]
        rfl
      rw [h1, foldl_trySend_of_full cs [c] (Nat.le_refl 1)]
      rfl
  refine ⟨?_, hhead, ?_, ?_, ?_⟩
  · rw [hhead]
    cases codes <;> simp
  · intro ch v h
    unfold trySend
    rw [if_neg (Nat.not_lt.mpr h)]
  · intro v
    rfl
  · intro env
    unfold qrCodesConsumed
    split <;> simp

/-- Witness for qr_single_slot_delivery: three racing callback invocations
leave exactly the first code in the slot, and a send into the full slot is
dropped. -/
theorem qr_single_slot_delivery_witness :
    depositAll ["first", "second", "third"] = ["first"] ∧
    trySend ["first"] "second" = ["first"] :=
  ⟨by rw [(qr_single_slot_delivery ["first", "second", "third"]).2.1]; rfl,
   (qr_single_slot_delivery ["first", "second", "third"]).2.2.1 ["first"] "second" (by decide)⟩

/-- C7 counterexample: a syntactically valid body with the malformed,
non-empty phone number not-a-number passes binding (only the required tag is
checked), so the handler connects the transport — a network call — and issues
the pairing request to the platform, answering 500, not the claimed 400
before any network call. -/
theorem pair_malformed_number_counterexample :
    (pairWithCodeHandler pairEnvMalformed).1.status ≠ 400 ∧
    Effect.connectCtx ∈ (pairWithCodeHandler pairEnvMalformed).2 ∧
    Effect.pairPhone "not-a-number" ∈ (pairWithCodeHandler pairEnvMalformed).2 :=
  ⟨by decide, by decide, by decide⟩

/-- C7 amended: for every POST /auth/pair request whose body is invalid JSON
or whose phone number is missing or empty, the handler answers 400 before any
collaborator call; no further local validation of the number's format is
performed (a malformed non-empty number reaches the platform). -/
theorem pair_invalid_body_rejected (env : PairEnv)
    (h : env.body = PairBody.invalidJson ∨ env.body = PairBody.json "") :
    (pairWithCodeHandler env).1.status = 400 ∧ (pairWithCodeHandler env).2 = [] := by
  rcases h with h | h <;> simp [pairWithCodeHandler, h, bindPairRequest]

/-- Witness for pair_invalid_body_rejected at an empty phone number. -/
theorem pair_invalid_body_rejected_witness :
    (pairWithCodeHandler pairEnvEmptyPhone).1.status = 400 ∧
    (pairWithCodeHandler pairEnvEmptyPhone).2 = [] :=
  pair_invalid_body_rejected pairEnvEmptyPhone (Or.inr rfl)

/-- C8: for every well-formed POST /auth/pair request on an unauthenticated
session the handler applies the same 409 conflict guard as the QR flow (both
produce the identical conflict response), initializes the client
synchronously, connects the transport only when it is not already connected,
then requests the pairing code; on success it answers 200 carrying the code
and a 300-second expiry hint, against the QR flow's 60-second hint. -/
theorem pair_happy_path (env : PairEnv) (p : String)
    (hb : env.body = PairBody.json p) (hp : p ≠ "")
    (ho : env.openWAErr = none) (ha : env.isAuthed = false)
    (hc : env.connectErr = none) (hpair : env.pairErr = none) :
    pairWithCodeHandler env =
      ({ status := 200,
         body := [("pairing_code", JVal.s env.pairCode),
                  ("phone_number", JVal.s p),
                  ("expires_in", JVal.n pairExpirySeconds),
                  ("instructions", JVal.s pairInstructions)] },
       [Effect.openWA, Effect.openWA] ++
         (if env.hasClientGetter && !env.isConnected then [Effect.connectCtx] else []) ++
         [Effect.pairPhone p]) ∧
    (Effect.connectCtx ∈ (pairWithCodeHandler env).2 → env.isConnected = false) ∧
    (∀ env2 : PairEnv, ∀ p2, env2.body = PairBody.json p2 → p2 ≠ "" →
      env2.openWAErr = none → env2.isAuthed = true →
      pairWithCodeHandler env2 = ({ status := 409, body := conflictBody }, [Effect.openWA])) ∧
    (∀ envq : QREnv, envq.openWAErr = none → envq.isAuthed = true →
      getQRCodeHandler envq = ({ status := 409, body := conflictBody }, [Effect.openWA])) ∧
    pairExpirySeconds = 300 ∧ qrExpirySeconds = 60 := by
  have hbind : bindPairRequest env.body = Except.ok p := by
    rw [hb]
    simp [bindPairRequest, hp]
  have hguard : (env.openWAErr.isNone && env.isAuthed) = false := by
    rw [ha]
    simp
  have hmain : pairWithCodeHandler env =
      ({ status := 200,
         body := [("pairing_code", JVal.s env.pairCode),
                  ("phone_number", JVal.s p),
                  ("expires_in", JVal.n pairExpirySeconds),
                  ("instructions", JVal.s pairInstructions)] },
       [Effect.openWA, Effect.openWA] ++
         (if env.hasClientGetter && !env.isConnected then [Effect.connectCtx] else []) ++
         [Effect.pairPhone p]) := by
    cases hgc : (env.hasClientGetter && !env.isConnected) with
    | true => simp [pairWithCodeHandler, hbind, hguard, ho, ha, hgc, hc, pairFinish, hpair]
    | false => simp [pairWithCodeHandler, hbind, hguard, ho, ha, hgc, pairFinish, hpair]
  refine ⟨hmain, ?_, ?_, ?_, rfl, rfl⟩
  · intro hmem
    rw [hmain] at hmem
    cases hgc : (env.hasClientGetter && !env.isConnected) with
    | false =>
      rw [hgc] at hmem
      simp at hmem
    | true =>
      have hsplit := hgc
      rw [Bool.and_eq_true] at hsplit
      simpa using hsplit.2
  · intro env2 p2 hb2 hp2 ho2 ha2
    have hbind2 : bindPairRequest env2.body = Except.ok p2 := by
      rw [hb2]
      simp [bindPairRequest, hp2]
    have hg2 : (env2.openWAErr.isNone && env2.isAuthed) = true := by
      rw [ho2, ha2]
      rfl
    simp [pairWithCodeHandler, hbind2, hg2]
  · intro envq hoq haq
    have hgq : (envq.openWAErr.isNone && envq.isAuthed) = true := by
      rw [hoq, haq]
      rfl
    simp [getQRCodeHandler, hgq]

/-- Witness for pair_happy_path at a concrete unauthenticated, unconnected
environment, together with the QR guard at the authenticated environment. -/
theorem pair_happy_path_witness :
    (pairWithCodeHandler pairEnvHappy).1.status = 200 ∧
    (pairWithCodeHandler pairEnvHappy).2 =
      [Effect.openWA, Effect.openWA, Effect.connectCtx, Effect.pairPhone "+5511999999999"] ∧
    (getQRCodeHandler qrEnvAuthed).1.status = 409 := by
  have h := pair_happy_path pairEnvHappy "+5511999999999" rfl (by decide) rfl rfl rfl rfl
  refine ⟨by rw [h.1], ?_, by rw [h.2.2.2.1 qrEnvAuthed rfl rfl]⟩
  rw [h.1]
  rfl

/-- C9 counterexample: a run in which a code is delivered at 1 s and the
background Connect call then fails at 5 s — before the 10 s foreground
deadline — answers 200 for the code; the connection failure is never surfaced
as the claimed 500 (the goroutine drops it because the handler already
returned and cancelled the foreground context). -/
theorem qr_error_after_code_counterexample :
    qrEnvLateError.connectErr = some "network down" ∧
    qrEnvLateError.connectDoneAt = some 5000 ∧
    5000 < qrDeadlineMs ∧
    (getQRCodeHandler qrEnvLateError).1.status = 200 ∧
    ¬ (getQRCodeHandler qrEnvLateError).1.status = 500 :=
  ⟨rfl, rfl, by decide, by decide, by decide⟩

/-- C9 amended: for every QR run past the guard in which the background
Connect call fails before the 10-second foreground deadline and no code was
delivered before the deadline, the failure is taken from the error slot and
surfaced as a 500 response whose body carries the explanation string; a
failure arriving after a code was consumed, or after the deadline, is
deliberately discarded just like a late code. -/
theorem qr_background_error_surfaced (env : QREnv)
    (hg : (env.openWAErr.isNone && env.isAuthed) = false)
    (hnc : ∀ t, env.codeAt = some t → qrDeadlineMs ≤ t)
    (tr : Nat) (e : String)
    (hdone : env.connectDoneAt = some tr) (herr : env.connectErr = some e)
    (htr : tr < qrDeadlineMs) :
    getQRCodeHandler env =
      ({ status := 500, body := [("error", JVal.s ("connection failed: " ++ e))] },
       [Effect.openWA, Effect.spawnBackground backgroundCtx]) := by
  have hw : qrCodeWins env = false := by
    unfold qrCodeWins
    cases hca : env.codeAt with
    | none => rfl
    | some t => simp [Nat.not_lt.mpr (hnc t hca)]
  have h1 : getQRCodeHandler env = (qrSelect env, [.openWA, .spawnBackground backgroundCtx]) := by
    simp [getQRCodeHandler, hg]
  rw [h1]
  unfold qrSelect
  rw [hw]
  simp [hdone, herr, htr]

/-- Witness for qr_background_error_surfaced: Connect fails at 3 s with no
code ever delivered, and the failure surfaces as a 500. -/
theorem qr_background_error_surfaced_witness :
    (getQRCodeHandler qrEnvEarlyError).1.status = 500 := by
  have h := qr_background_error_surfaced qrEnvEarlyError rfl
    (by intro t ht; simp [qrEnvEarlyError] at ht) 3000 "dns failure" rfl rfl (by decide)
  rw [h]

/-- A string extended by any suffix passes the Bearer prefix test. -/
theorem goHasPrefix_bearer (t : String) : goHasPrefix ("Bearer " ++ t) "Bearer " = true := by
  simp [goHasPrefix, String.data_append, List.isPrefixOf_iff_prefix]

/-- Trimming the Bearer prefix from a Bearer-prefixed string yields the token. -/
theorem goTrimPrefix_bearer (t : String) : goTrimPrefix ("Bearer " ++ t) "Bearer " = t := by
  obtain ⟨l⟩ := t
  simp [goTrimPrefix, goHasPrefix, String.data_append, List.isPrefixOf_iff_prefix]

/-- C10: the endpoint handler behind every /api/v1 route runs exactly when
the request presents a non-empty API key belonging to the configured key set,
the key being taken from the X-API-Key header when non-empty, else the
api_key query parameter, else a Bearer Authorization header; a missing or
unrecognized key makes the middleware abort with 401 so the handler never
runs; every route of the /api/v1 group (the /auth/* routes included) carries
the middleware, while GET /health is public. -/
theorem api_key_gate (keys : List String) (r : APIRequest) :
    (apiKeyAuth keys r = AuthDecision.handlerRuns ↔
      (extractAPIKey r ≠ "" ∧ extractAPIKey r ∈ keys)) ∧
    (apiKeyAuth keys r ≠ AuthDecision.handlerRuns →
      authAbortStatus (apiKeyAuth keys r) = some 401) ∧
    (r.xApiKey ≠ "" → extractAPIKey r = r.xApiKey) ∧
    (r.xApiKey = "" → r.apiKeyQuery ≠ "" → extractAPIKey r = r.apiKeyQuery) ∧
    (r.xApiKey = "" → r.apiKeyQuery = "" → ∀ t, r.authorization = "Bearer " ++ t →
      extractAPIKey r = t) ∧
    (∀ rt ∈ apiV1Routes, rt.requiresAPIKey = true) ∧
    (∀ rt ∈ authRoutes, rt ∈ apiV1Routes) ∧
    (⟨"GET", "/health", false⟩ : Route) ∈ publicRoutes := by
  refine ⟨?_, ?_, ?_, ?_, ?_, by decide, by decide, by decide⟩
  · by_cases hk : extractAPIKey r = ""
    · simp [apiKeyAuth, hk]
    · by_cases hm : extractAPIKey r ∈ keys
      · simp [apiKeyAuth, hk, hm]
      · simp [apiKeyAuth, hk, hm]
  · intro hne
    cases hd : apiKeyAuth keys r with
    | handlerRuns => exact absurd hd hne
    | rejectedMissing => rfl
    | rejectedInvalid => rfl
  · intro hx
    simp [extractAPIKey, hx]
  · intro hx hq
    simp [extractAPIKey, hx, hq]
  · intro hx hq t ht
    simp [extractAPIKey, hx, hq, ht, goHasPrefix_bearer, goTrimPrefix_bearer]

/-- Witness for api_key_gate: a request presenting a configured key in the
X-API-Key header reaches the handler. -/
theorem api_key_gate_witness :
    apiKeyAuth sampleKeys sampleReq = AuthDecision.handlerRuns ∧
    extractAPIKey sampleReq = "k2" :=
  ⟨(api_key_gate sampleKeys sampleReq).1.mpr ⟨by decide, by decide⟩, by decide⟩
